import Mathlib

/-!
Verification development for the AInterviewer repository.

The development embeds, in Lean, the data model and operations of:
* `main.py` — the interview session loop `ejecutar_entrevista`;
* `modules/entrevista_logger.py` — `EntrevistaLogger.guardar_conversacion`,
  `EntrevistaLogger.cargar_conversacion`;
* `modules/llm_conversacion.py` — `OpenRouterConversacion.generar_pregunta`
  and the module-level `generar_pregunta`.

External effects are made explicit: the remote HTTP exchange is abstracted as a
value of type `RespuestaApi` (the transport either fails or delivers a parsed
JSON body), the transcription captured in each loop iteration and the question
produced by the generator are inputs to the loop step, and the session log file
is a value carrying both its byte content and the JSON document it encodes.
-/

/-- Roles of a conversation turn, the `"rol"` field of `main.py`
(`"entrevistador"` / `"candidato"`). -/
inductive Rol where
  | entrevistador
  | candidato
deriving DecidableEq, Repr

/-- One conversation entry, the dict `\x7b"rol": ..., "texto": ...\x7d` built in
`main.py`. -/
structure Turno where
  rol : Rol
  texto : String
deriving DecidableEq, Repr

/-- One chat-completion message, the dict `\x7b"role": ..., "content": ...\x7d`
built in `OpenRouterConversacion.generar_pregunta`. -/
structure Mensaje where
  role : String
  content : String
deriving DecidableEq, Repr

/-! ### String primitives

Models of the Python string operations used by the sources, over `List Char`
so that every definition is structurally recursive and kernel-evaluable. -/

/-- Whether the first list is a prefix of the second (Boolean). -/
def esPrefijoDe : List Char → List Char → Bool
  | [], _ => true
  | _ :: _, [] => false
  | a :: as, b :: bs => a == b && esPrefijoDe as bs

/-- Whether `patron` occurs as a contiguous sublist, scanning left to right;
models the Python substring test `patron in s`. -/
def contieneLista (patron : List Char) : List Char → Bool
  | [] => patron.isEmpty
  | c :: resto => esPrefijoDe patron (c :: resto) || contieneLista patron resto

/-- Python `patron in s` on strings. -/
def contieneSub (s patron : String) : Bool :=
  contieneLista patron.toList s.toList

/-- Python `s.lower()`. The markers and fallback texts compared by the code are
ASCII-lowercase, for which `Char.toLower` agrees with Python. -/
def aMinusculas (s : String) : String :=
  String.mk (s.toList.map Char.toLower)

/-- Python `s.strip()` (no arguments): remove leading and trailing
whitespace. -/
def recortar (s : String) : String :=
  String.mk (((s.toList.dropWhile Char.isWhitespace).reverse.dropWhile
    Char.isWhitespace).reverse)

/-- Replace every occurrence of the non-empty pattern `p :: ps`, scanning left
to right without overlap; models Python `str.replace` for a non-empty
pattern. The recursion is structural on a fuel bound; each step consumes at
least one character, so fuel equal to the input length is always enough. -/
def reemplazarAux (p : Char) (ps : List Char) (nuevo : List Char) :
    Nat → List Char → List Char
  | _, [] => []
  | 0, l => l
  | combustible + 1, c :: resto =>
    if esPrefijoDe (p :: ps) (c :: resto) then
      nuevo ++ reemplazarAux p ps nuevo combustible (resto.drop ps.length)
    else
      c :: reemplazarAux p ps nuevo combustible resto

/-- Python `s.replace(patron, nuevo)`. The only pattern used by the sources is
the non-empty literal `"Entrevistador:"`; for an empty pattern this model
returns `s` unchanged. -/
def reemplazar (s patron nuevo : String) : String :=
  match patron.toList with
  | [] => s
  | p :: ps => String.mk (reemplazarAux p ps nuevo.toList s.toList.length s.toList)

/-! ### Literal texts from the sources -/

/-- Opening question appended before the loop in `main.py`. -/
def pregunta_inicial : String :=
  "Hola, bienvenido a esta entrevista. ¿Podrías presentarte brevemente y contarme sobre tu experiencia profesional?"

/-- Final user-role instruction appended to the message list in
`OpenRouterConversacion.generar_pregunta`. -/
def instruccionFinal : String :=
  "Genera la siguiente pregunta del entrevistador basada en la conversación anterior. Solo devuelve la pregunta sin explicaciones adicionales o prefijos."

/-- Fallback returned by `OpenRouterConversacion.generar_pregunta` when the
response body does not have the expected `choices`/`message`/`content`
shape. -/
def preguntaRespaldoFormato : String :=
  "¿Podrías contarme más sobre tus habilidades técnicas?"

/-- Fallback returned by the `except` clause of
`OpenRouterConversacion.generar_pregunta` (request exception, HTTP error
status via `raise_for_status`, JSON parse failure, or any exception raised
while inspecting the body). -/
def preguntaRespaldoTransporte : String :=
  "¿Cómo relacionarías tu experiencia previa con este puesto específicamente?"

/-- Fallback returned by the `except` clause of the module-level
`generar_pregunta` (for example when the constructor raises because the API
key is missing). -/
def preguntaRespaldoError : String :=
  "Interesante. ¿Puedes contarme más sobre tu experiencia en ese aspecto?"

/-- Termination test of `main.py`:
`"gracias por tu tiempo" in nueva_pregunta.lower() or "finalizar" in nueva_pregunta.lower()`. -/
def esTerminacion (nueva_pregunta : String) : Bool :=
  contieneSub (aMinusculas nueva_pregunta) "gracias por tu tiempo" ||
    contieneSub (aMinusculas nueva_pregunta) "finalizar"

/-! ### JSON documents

A small JSON value type, enough for the documents the repository writes and
for the response bodies its LLM client inspects. -/

/-- JSON values. `null` stands for any JSON value that is neither a string nor
an array nor an object; the code under scrutiny never looks inside numbers or
booleans, it only fails on them, exactly as it fails on `null`. -/
inductive Json where
  | str (s : String)
  | arr (elementos : List Json)
  | obj (campos : List (String × Json))
  | null

/-! ### `modules/entrevista_logger.py` -/

/-- The `"rol"` string stored by `main.py` for each role. -/
def rolSerializado : Rol → String
  | Rol.entrevistador => "entrevistador"
  | Rol.candidato => "candidato"

/-- A turn as the JSON object `main.py` builds. -/
def turnoAJson (t : Turno) : Json :=
  Json.obj [("rol", Json.str (rolSerializado t.rol)), ("texto", Json.str t.texto)]

/-- A conversation as the JSON array written to the session file. -/
def conversacionAJson (conv : List Turno) : Json :=
  Json.arr (conv.map turnoAJson)

/-- The document `datos` built by `EntrevistaLogger.guardar_conversacion`:
`\x7b"timestamp": ..., "conversacion": ...\x7d`. -/
def documentoSesion (marcaTiempo : String) (conv : List Turno) : Json :=
  Json.obj [("timestamp", Json.str marcaTiempo),
    ("conversacion", conversacionAJson conv)]

/-- JSON string escaping (quote and backslash); none of the texts in this
development contain other characters that `json.dump` escapes. -/
def escapar (s : String) : String :=
  String.mk (s.toList.flatMap fun c => if c = '"' ∨ c = '\\' then ['\\', c] else [c])

/-- A JSON string literal. -/
def cadenaJson (s : String) : String := "\"" ++ escapar s ++ "\""

/-- Byte content of one serialized turn. -/
def turnoSerializado (t : Turno) : String :=
  "\x7b\"rol\": " ++ cadenaJson (rolSerializado t.rol) ++ ", \"texto\": " ++
    cadenaJson t.texto ++ "\x7d"

/-- Byte content of the serialized conversation array. -/
def conversacionSerializada (conv : List Turno) : String :=
  "[" ++ String.intercalate ", " (conv.map turnoSerializado) ++ "]"

/-- The session log file: the bytes `json.dump` wrote and the JSON document
they encode (`json.load` of those bytes returns exactly this document; the
two views are kept together because the standard-library codec is external to
the repository). -/
structure ArchivoJson where
  contenido : String
  documento : Json

/-- `EntrevistaLogger.guardar_conversacion`: serialize
`\x7b"timestamp": marcaTiempo, "conversacion": conversacion\x7d` and write it to
the session file opened in mode `"w"`. Opening in mode `"w"` truncates, so the
previous file content `archivoPrevio` does not influence the result; the
argument is kept to make the overwrite semantics a statement about the
definition. The serialization models `json.dump` up to its whitespace layout
(`indent=2`), which is constant across calls and therefore irrelevant to
every byte-comparison proved below. -/
def guardar_conversacion (archivoPrevio : Option ArchivoJson)
    (marcaTiempo : String) (conversacion : List Turno) : ArchivoJson :=
  { contenido :=
      "\x7b\"timestamp\": " ++ cadenaJson marcaTiempo ++ ", \"conversacion\": " ++
        conversacionSerializada conversacion ++ "\x7d"
    documento := documentoSesion marcaTiempo conversacion }

/-- `EntrevistaLogger.cargar_conversacion`: `json.load` the file, then
`datos.get("conversacion", [])`. On a document that is not an object the
Python attribute access would raise (that exception is not among the ones the
method catches), modelled by `Except.error`. -/
def cargar_conversacion (archivo : ArchivoJson) : Except Unit Json :=
  match archivo.documento with
  | Json.obj campos =>
      Except.ok (((campos.find? fun kv => kv.1 == "conversacion").map
        Prod.snd).getD (Json.arr []))
  | _ => Except.error ()

/-- Decode the `"rol"` string back to a role. -/
def rolDeCadena (s : String) : Option Rol :=
  if s = "entrevistador" then some Rol.entrevistador
  else if s = "candidato" then some Rol.candidato
  else none

/-- Decode one turn object. -/
def turnoDeJson : Json → Option Turno
  | Json.obj [("rol", Json.str r), ("texto", Json.str x)] =>
      (rolDeCadena r).map fun rol => ⟨rol, x⟩
  | _ => none

/-- Decode a list of turn objects. -/
def listaTurnosDeJson : List Json → Option (List Turno)
  | [] => some []
  | e :: resto =>
    match turnoDeJson e, listaTurnosDeJson resto with
    | some t, some ts => some (t :: ts)
    | _, _ => none

/-- Decode a stored conversation value. -/
def conversacionDeJson : Json → Option (List Turno)
  | Json.arr elementos => listaTurnosDeJson elementos
  | _ => none

/-! ### `modules/llm_conversacion.py`

Dynamic (Python-style) access to a decoded JSON body. Each operation returns
`Except Unit _`: `Except.error ()` stands for a raised exception, which the
`try`/`except` of `OpenRouterConversacion.generar_pregunta` turns into the
transport fallback. -/

/-- Python `clave in j`: key test on a dict, membership on a list, substring
test on a string, `TypeError` otherwise. -/
def Json.contiene : Json → String → Except Unit Bool
  | Json.obj campos, clave => Except.ok (campos.any fun kv => kv.1 == clave)
  | Json.arr elementos, clave =>
      Except.ok (elementos.any fun e =>
        match e with
        | Json.str s => s == clave
        | _ => false)
  | Json.str s, clave => Except.ok (contieneSub s clave)
  | Json.null, _ => Except.error ()

/-- Python `j[clave]` with a string key: dict lookup (`KeyError` when absent),
`TypeError` on any other value. -/
def Json.obtener : Json → String → Except Unit Json
  | Json.obj campos, clave =>
    match campos.find? fun kv => kv.1 == clave with
    | some kv => Except.ok kv.2
    | none => Except.error ()
  | _, _ => Except.error ()

/-- Python `len(j)`: length of a list, string or dict, `TypeError`
otherwise. -/
def Json.longitud : Json → Except Unit Nat
  | Json.arr elementos => Except.ok elementos.length
  | Json.str s => Except.ok s.length
  | Json.obj campos => Except.ok campos.length
  | Json.null => Except.error ()

/-- Python `j[i]` with an integer index: list indexing (`IndexError` out of
range), one-character string on a string, `KeyError`/`TypeError` otherwise. -/
def Json.indice : Json → Nat → Except Unit Json
  | Json.arr elementos, i =>
    match elementos[i]? with
    | some e => Except.ok e
    | none => Except.error ()
  | Json.str s, i =>
    match s.toList[i]? with
    | some c => Except.ok (Json.str (String.mk [c]))
    | none => Except.error ()
  | _, _ => Except.error ()

/-- Python attribute access `.strip`/`.replace` is only available on strings;
`AttributeError` otherwise. -/
def Json.comoCadena : Json → Except Unit String
  | Json.str s => Except.ok s
  | _ => Except.error ()

/-- Cleaning applied to a successfully extracted content string:
`content.strip()`, then `.replace("Entrevistador:", "").strip()`. -/
def limpiarPregunta (contenido : String) : String :=
  recortar (reemplazar (recortar contenido) "Entrevistador:" "")

/-- Outcome of the HTTP exchange in `OpenRouterConversacion.generar_pregunta`:
`falla` when `requests.post` raises, the status is not ok (the code then calls
`raise_for_status()`), or `response.json()` fails to parse; `exito cuerpo`
when a JSON body was obtained. -/
inductive RespuestaApi where
  | falla
  | exito (cuerpo : Json)

/-- The body inspection of `OpenRouterConversacion.generar_pregunta`, line by
line: `"choices" in resultado and len(resultado["choices"]) > 0`, then
`"message" in resultado["choices"][0] and "content" in
resultado["choices"][0]["message"]`, then taking
`resultado["choices"][0]["message"]["content"]` as a string. `ok (some texto)`
is the successful extraction, `ok none` reaches the literal
`return "¿Podrías contarme más sobre tus habilidades técnicas?"`, and
`error ()` is an exception that the surrounding `except` will catch. -/
def contenidoExtraido (resultado : Json) : Except Unit (Option String) := do
  let tieneChoices ← resultado.contiene "choices"
  let hayChoices ←
    if tieneChoices then do
      let choices ← resultado.obtener "choices"
      let n ← choices.longitud
      pure (decide (0 < n))
    else
      pure false
  if hayChoices then
    let choices ← resultado.obtener "choices"
    let primero ← choices.indice 0
    let tieneMensaje ← primero.contiene "message"
    let formatoCorrecto ←
      if tieneMensaje then do
        let mensaje ← primero.obtener "message"
        mensaje.contiene "content"
      else
        pure false
    if formatoCorrecto then do
      let mensaje ← primero.obtener "message"
      let contenido ← mensaje.obtener "content"
      let texto ← contenido.comoCadena
      pure (some texto)
    else
      pure none
  else
    pure none

/-- The message list `mensajes` built by
`OpenRouterConversacion.generar_pregunta` before the request: the system
instruction, one message per turn (`"entrevistador"` mapped to `"assistant"`,
anything else to `"user"`), and the final user-role instruction. -/
def OpenRouterConversacion.construirMensajes (conversacion : List Turno)
    (prompt_base : String) : List Mensaje :=
  (⟨"system", prompt_base⟩ : Mensaje) ::
    ((conversacion.map fun m =>
      (⟨if m.rol = Rol.entrevistador then "assistant" else "user",
        m.texto⟩ : Mensaje)) ++
      [(⟨"user", instruccionFinal⟩ : Mensaje)])

/-- `OpenRouterConversacion.generar_pregunta`. The payload it sends carries
`construirMensajes conversacion prompt_base`; the wire outcome is the
abstracted `respuesta`. A transport failure or an exception while inspecting
the body hits the `except` clause; a clean shape failure returns the format
fallback; a successful extraction returns the cleaned content string. -/
def OpenRouterConversacion.generar_pregunta (conversacion : List Turno)
    (prompt_base : String) (respuesta : RespuestaApi) : String :=
  match respuesta with
  | RespuestaApi.falla => preguntaRespaldoTransporte
  | RespuestaApi.exito cuerpo =>
    match contenidoExtraido cuerpo with
    | Except.error _ => preguntaRespaldoTransporte
    | Except.ok none => preguntaRespaldoFormato
    | Except.ok (some texto) => limpiarPregunta texto

/-- Module-level `generar_pregunta`: construct `OpenRouterConversacion` (whose
constructor raises `ValueError` when `OPENROUTER_API_KEY` is absent, caught by
the outer `except`, which returns the third fallback) and delegate to the
method. -/
def generar_pregunta (conversacion : List Turno) (prompt_base : String)
    (claveApi : Bool) (respuesta : RespuestaApi) : String :=
  if claveApi then
    OpenRouterConversacion.generar_pregunta conversacion prompt_base respuesta
  else
    preguntaRespaldoError

/-! ### `main.py` — the session loop -/

/-- Observable state of `ejecutar_entrevista`: the conversation list, the
sequence of snapshots passed to `logger.guardar_conversacion` (in call order),
whether the loop has exited via the termination branch, and how many capture
steps (`grabar_y_transcribir` calls) have run. -/
structure EstadoSesion where
  conversacion : List Turno
  persistencias : List (List Turno)
  terminado : Bool
  capturas : Nat
deriving DecidableEq, Repr

/-- The opening interviewer turn appended before the loop. -/
def turnoInicial : Turno := ⟨Rol.entrevistador, pregunta_inicial⟩

/-- State at loop entry: the conversation holds only the opening question and
nothing has been persisted. -/
def estadoInicial : EstadoSesion := ⟨[turnoInicial], [], false, 0⟩

/-- One iteration of the `while True` loop in `ejecutar_entrevista`, given the
text returned by `grabar_y_transcribir` and the text the generator would
return for the grown conversation. The capture step always runs; on an
empty/whitespace transcription the iteration is a bare `continue`; otherwise
the candidate turn is appended and persisted, the question is generated, and
the termination test decides between the final append-persist-break and a
plain append. -/
def iteracion (st : EstadoSesion) (respuesta nueva_pregunta : String) :
    EstadoSesion :=
  let trasCaptura := { st with capturas := st.capturas + 1 }
  if recortar respuesta = "" then
    trasCaptura
  else
    let conTurnoCandidato :=
      trasCaptura.conversacion ++ [⟨Rol.candidato, respuesta⟩]
    let trasPersistencia :=
      { trasCaptura with
          conversacion := conTurnoCandidato
          persistencias := trasCaptura.persistencias ++ [conTurnoCandidato] }
    if esTerminacion nueva_pregunta then
      let conTurnoFinal :=
        conTurnoCandidato ++ [⟨Rol.entrevistador, nueva_pregunta⟩]
      { trasPersistencia with
          conversacion := conTurnoFinal
          persistencias := trasPersistencia.persistencias ++ [conTurnoFinal]
          terminado := true }
    else
      { trasPersistencia with
          conversacion :=
            conTurnoCandidato ++ [⟨Rol.entrevistador, nueva_pregunta⟩] }

/-- The session loop of `ejecutar_entrevista`, driven by the stream of
(transcription, generated question) pairs; once the termination branch has
run, the loop has exited and consumes nothing further. -/
def ejecutar_entrevista (st : EstadoSesion) :
    List (String × String) → EstadoSesion
  | [] => st
  | (respuesta, nueva_pregunta) :: resto =>
    if st.terminado then st
    else ejecutar_entrevista (iteracion st respuesta nueva_pregunta) resto

/-- The `except KeyboardInterrupt` handler of `ejecutar_entrevista`: one final
`guardar_conversacion(conversacion)` with the turns accumulated so far, then
exit. -/
def manejarInterrupcion (st : EstadoSesion) : EstadoSesion :=
  { st with
      persistencias := st.persistencias ++ [st.conversacion]
      terminado := true }

/-! ### Derived predicates and example data -/

/-- Adjacent turns carry different roles. -/
def alterna : List Turno → Bool
  | [] => true
  | [_] => true
  | a :: b :: resto => (a.rol != b.rol) && alterna (b :: resto)

/-- Role of the last turn, if any. -/
def ultimoRol (conv : List Turno) : Option Rol :=
  conv.getLast?.map Turno.rol

/-- Invariant of the session loop: the conversation alternates roles, opens
with the interviewer and (at iteration boundaries) closes with the
interviewer. -/
def invarianteSesion (st : EstadoSesion) : Prop :=
  alterna st.conversacion = true ∧
    st.conversacion.head?.map Turno.rol = some Rol.entrevistador ∧
    ultimoRol st.conversacion = some Rol.entrevistador

/-- A concrete conversation used by counterexamples and witnesses. -/
def conversacionEjemplo : List Turno :=
  [⟨Rol.entrevistador, "Hola, bienvenido"⟩, ⟨Rol.candidato, "Hola, soy Juan"⟩]

/-- A response body whose shape is exactly what the client expects but whose
`content` string is empty. -/
def cuerpoContenidoVacio : Json :=
  Json.obj [("choices", Json.arr
    [Json.obj [("message", Json.obj [("content", Json.str "")])]])]

/-! ### Helper lemmas -/

theorem rolDeCadena_rolSerializado (r : Rol) :
    rolDeCadena (rolSerializado r) = some r := by
  cases r <;> rfl

theorem turnoDeJson_turnoAJson (t : Turno) :
    turnoDeJson (turnoAJson t) = some t := by
  obtain ⟨r, x⟩ := t
  cases r <;> rfl

theorem listaTurnosDeJson_map (conv : List Turno) :
    listaTurnosDeJson (conv.map turnoAJson) = some conv := by
  induction conv with
  | nil => rfl
  | cons t resto ih =>
    simp [listaTurnosDeJson, turnoDeJson_turnoAJson, ih]

theorem ejecutar_entrevista_terminado (st : EstadoSesion)
    (entradas : List (String × String)) (h : st.terminado = true) :
    ejecutar_entrevista st entradas = st := by
  cases entradas with
  | nil => rfl
  | cons e resto =>
    obtain ⟨r, p⟩ := e
    simp [ejecutar_entrevista, h]

theorem lt_length_de_getElem? {α : Type} {l : List α} {i : Nat} {a : α}
    (h : l[i]? = some a) : i < l.length := by
  by_contra hc
  push_neg at hc
  rw [List.getElem?_eq_none hc] at h
  exact Option.noConfusion h

theorem alterna_adyacentes {conv : List Turno} (h : alterna conv = true) :
    ∀ i a b, conv[i]? = some a → conv[i + 1]? = some b → a.rol ≠ b.rol := by
  induction conv with
  | nil => intro i a b ha; simp at ha
  | cons x resto ih =>
    intro i a b ha hb
    cases resto with
    | nil =>
      cases i with
      | zero => simp at hb
      | succ j => simp at hb
    | cons y resto2 =>
      have h2 : (x.rol != y.rol) = true ∧ alterna (y :: resto2) = true := by
        simpa [alterna, Bool.and_eq_true] using h
      cases i with
      | zero =>
        simp only [List.getElem?_cons_zero, Option.some.injEq] at ha
        rw [List.getElem?_cons_succ, List.getElem?_cons_zero] at hb
        simp only [Option.some.injEq] at hb
        subst ha
        subst hb
        exact bne_iff_ne.mp h2.1
      | succ j =>
        rw [List.getElem?_cons_succ] at ha
        rw [List.getElem?_cons_succ] at hb
        exact ih h2.2 j a b ha hb

theorem alterna_concat {conv : List Turno} {r : Rol} {t : Turno}
    (h : alterna conv = true) (hu : ultimoRol conv = some r)
    (hne : r ≠ t.rol) : alterna (conv ++ [t]) = true := by
  induction conv with
  | nil => simp [ultimoRol] at hu
  | cons a resto ih =>
    cases resto with
    | nil =>
      have ha : a.rol = r := by simpa [ultimoRol] using hu
      have hat : a.rol ≠ t.rol := by rw [ha]; exact hne
      show alterna [a, t] = true
      simp [alterna, bne_iff_ne, hat]
    | cons b resto2 =>
      have h2 : (a.rol != b.rol) = true ∧ alterna (b :: resto2) = true := by
        simpa [alterna, Bool.and_eq_true] using h
      have hu2 : ultimoRol (b :: resto2) = some r := by
        simpa [ultimoRol, List.getLast?_cons_cons] using hu
      have := ih h2.2 hu2
      show alterna (a :: b :: (resto2 ++ [t])) = true
      simp only [alterna, Bool.and_eq_true]
      exact ⟨h2.1, this⟩

theorem iteracion_conversacion_vacia {st : EstadoSesion}
    {respuesta : String} (hr : recortar respuesta = "")
    (nueva_pregunta : String) :
    iteracion st respuesta nueva_pregunta = { st with capturas := st.capturas + 1 } := by
  simp [iteracion, hr]

theorem iteracion_conversacion {st : EstadoSesion} {respuesta : String}
    (hr : recortar respuesta ≠ "") (nueva_pregunta : String) :
    (iteracion st respuesta nueva_pregunta).conversacion =
      st.conversacion ++ [⟨Rol.candidato, respuesta⟩,
        ⟨Rol.entrevistador, nueva_pregunta⟩] := by
  by_cases ht : esTerminacion nueva_pregunta <;> simp [iteracion, hr, ht]

theorem invariante_iteracion {st : EstadoSesion} (h : invarianteSesion st)
    (respuesta nueva_pregunta : String) :
    invarianteSesion (iteracion st respuesta nueva_pregunta) := by
  obtain ⟨halt, hhead, hult⟩ := h
  by_cases hr : recortar respuesta = ""
  · refine ⟨?_, ?_, ?_⟩ <;> rw [iteracion_conversacion_vacia hr]
    · exact halt
    · exact hhead
    · exact hult
  · have hneCand :
        Rol.entrevistador ≠ (⟨Rol.candidato, respuesta⟩ : Turno).rol := by
      intro hx; exact Rol.noConfusion hx
    have hneInt :
        Rol.candidato ≠ (⟨Rol.entrevistador, nueva_pregunta⟩ : Turno).rol := by
      intro hx; exact Rol.noConfusion hx
    have hcand :
        alterna (st.conversacion ++ [⟨Rol.candidato, respuesta⟩]) = true :=
      alterna_concat halt hult hneCand
    have hult1 :
        ultimoRol (st.conversacion ++ [⟨Rol.candidato, respuesta⟩]) =
          some Rol.candidato := by
      simp [ultimoRol, List.getLast?_concat]
    have hfin :
        alterna (st.conversacion ++ [⟨Rol.candidato, respuesta⟩,
          ⟨Rol.entrevistador, nueva_pregunta⟩]) = true := by
      have := alterna_concat hcand hult1 hneInt
      simpa [List.append_assoc] using this
    have hult2 :
        ultimoRol (st.conversacion ++ [⟨Rol.candidato, respuesta⟩,
          ⟨Rol.entrevistador, nueva_pregunta⟩]) = some Rol.entrevistador := by
      have : ultimoRol ((st.conversacion ++ [⟨Rol.candidato, respuesta⟩]) ++
          [⟨Rol.entrevistador, nueva_pregunta⟩]) = some Rol.entrevistador := by
        simp [ultimoRol, List.getLast?_concat]
      simpa [List.append_assoc] using this
    have hhead2 :
        (st.conversacion ++ ([⟨Rol.candidato, respuesta⟩,
          ⟨Rol.entrevistador, nueva_pregunta⟩] : List Turno)).head?.map Turno.rol =
          some Rol.entrevistador := by
      cases hconv : st.conversacion with
      | nil => rw [hconv] at hhead; simp at hhead
      | cons x rest => rw [hconv] at hhead; simpa using hhead
    refine ⟨?_, ?_, ?_⟩ <;> rw [iteracion_conversacion hr]
    · exact hfin
    · exact hhead2
    · exact hult2

theorem invariante_ejecutar {st : EstadoSesion} (h : invarianteSesion st)
    (entradas : List (String × String)) :
    invarianteSesion (ejecutar_entrevista st entradas) := by
  induction entradas generalizing st with
  | nil => exact h
  | cons e resto ih =>
    obtain ⟨r, p⟩ := e
    show invarianteSesion
      (if st.terminado = true then st
        else ejecutar_entrevista (iteracion st r p) resto)
    by_cases ht : st.terminado = true
    · rw [if_pos ht]; exact h
    · rw [if_neg ht]; exact ih (invariante_iteracion h r p)

theorem invariante_estadoInicial : invarianteSesion estadoInicial :=
  ⟨rfl, rfl, rfl⟩

/-! ### Claims -/

/-- C1, counterexample: the claim that persisting the same conversation twice
in succession yields byte-identical stored file content fails on the code,
because `guardar_conversacion` stamps each write with
`datetime.datetime.now().isoformat()`: two calls observing different clock
readings produce file contents that differ in the `timestamp` field. -/
theorem c1_contraejemplo :
    (guardar_conversacion
        (some (guardar_conversacion none "2025-01-01T10:00:00" conversacionEjemplo))
        "2025-01-01T10:00:01" conversacionEjemplo).contenido ≠
      (guardar_conversacion none "2025-01-01T10:00:00" conversacionEjemplo).contenido := by
  decide

/-- C1, amended: persistence is overwrite-based, not append-based — the stored
content after a second `guardar_conversacion` call is exactly the one-call
serialization under the second timestamp, independent of what the file held
before; when the two calls observe the same clock reading the contents are
byte-identical; and the stored `conversacion` payload loaded back from either
write is identical. -/
theorem c1_enmendada (prevA prevB : Option ArchivoJson) (t1 t2 : String)
    (conv : List Turno) :
    (guardar_conversacion prevA t2 conv).contenido =
      (guardar_conversacion prevB t2 conv).contenido ∧
    (t1 = t2 →
      (guardar_conversacion prevA t1 conv).contenido =
        (guardar_conversacion prevB t2 conv).contenido) ∧
    cargar_conversacion (guardar_conversacion prevA t1 conv) =
      cargar_conversacion (guardar_conversacion prevB t2 conv) := by
  refine ⟨rfl, ?_, rfl⟩
  intro h
  rw [h]
  rfl

theorem c1_enmendada_testigo :
    ("2025-01-01T10:00:00" : String) = "2025-01-01T10:00:00" ∧
    (guardar_conversacion none "2025-01-01T10:00:00" conversacionEjemplo).contenido =
      (guardar_conversacion (some (guardar_conversacion none "2025-01-01T09:59:59"
        conversacionEjemplo)) "2025-01-01T10:00:00" conversacionEjemplo).contenido :=
  ⟨rfl,
    (c1_enmendada none
      (some (guardar_conversacion none "2025-01-01T09:59:59" conversacionEjemplo))
      "2025-01-01T10:00:00" "2025-01-01T10:00:00" conversacionEjemplo).2.1 rfl⟩

/-- C2, counterexample: the claim that `generar_pregunta` always returns
non-empty text fails on the code. On a well-shaped response whose
`choices[0].message.content` is the empty string the method returns
`"".strip().replace("Entrevistador:", "").strip()`, i.e. the empty string. -/
theorem c2_contraejemplo :
    generar_pregunta [] "pb" true (RespuestaApi.exito cuerpoContenidoVacio) = "" := by
  rfl

/-- C2, amended: `generar_pregunta` always returns (it is total, never
propagating an exception); when the API key is missing it returns the outer
literal fallback; on a transport-layer failure, and on any exception raised
while inspecting the body, it returns the transport fallback; on a clean
response-shape failure it returns the format fallback — two distinct non-empty
literal fallback questions, one per failure layer; on a successful extraction
it returns the cleaned content, which can be empty when the model content
strips to nothing (so the result is not always non-empty). -/
theorem c2_enmendada (conversacion : List Turno) (prompt_base : String)
    (claveApi : Bool) (respuesta : RespuestaApi) :
    (claveApi = false →
      generar_pregunta conversacion prompt_base claveApi respuesta =
        preguntaRespaldoError) ∧
    (generar_pregunta conversacion prompt_base true RespuestaApi.falla =
      preguntaRespaldoTransporte) ∧
    (∀ cuerpo, contenidoExtraido cuerpo = Except.error () →
      generar_pregunta conversacion prompt_base true (RespuestaApi.exito cuerpo) =
        preguntaRespaldoTransporte) ∧
    (∀ cuerpo, contenidoExtraido cuerpo = Except.ok none →
      generar_pregunta conversacion prompt_base true (RespuestaApi.exito cuerpo) =
        preguntaRespaldoFormato) ∧
    (∀ cuerpo texto, contenidoExtraido cuerpo = Except.ok (some texto) →
      generar_pregunta conversacion prompt_base true (RespuestaApi.exito cuerpo) =
        limpiarPregunta texto) ∧
    (generar_pregunta conversacion prompt_base claveApi respuesta =
        preguntaRespaldoError ∨
      generar_pregunta conversacion prompt_base claveApi respuesta =
        preguntaRespaldoTransporte ∨
      generar_pregunta conversacion prompt_base claveApi respuesta =
        preguntaRespaldoFormato ∨
      ∃ texto, generar_pregunta conversacion prompt_base claveApi respuesta =
        limpiarPregunta texto) ∧
    preguntaRespaldoTransporte ≠ "" ∧ preguntaRespaldoFormato ≠ "" ∧
    preguntaRespaldoError ≠ "" ∧
    preguntaRespaldoTransporte ≠ preguntaRespaldoFormato := by
  refine ⟨?_, rfl, ?_, ?_, ?_, ?_, by decide, by decide, by decide, by decide⟩
  · intro h
    rw [h]
    rfl
  · intro cuerpo h
    simp [generar_pregunta, OpenRouterConversacion.generar_pregunta, h]
  · intro cuerpo h
    simp [generar_pregunta, OpenRouterConversacion.generar_pregunta, h]
  · intro cuerpo texto h
    simp [generar_pregunta, OpenRouterConversacion.generar_pregunta, h]
  · cases claveApi with
    | false => exact Or.inl rfl
    | true =>
      cases respuesta with
      | falla => exact Or.inr (Or.inl rfl)
      | exito cuerpo =>
        cases hc : contenidoExtraido cuerpo with
        | error e =>
          cases e
          exact Or.inr (Or.inl (by
            simp [generar_pregunta, OpenRouterConversacion.generar_pregunta, hc]))
        | ok o =>
          cases o with
          | none =>
            exact Or.inr (Or.inr (Or.inl (by
              simp [generar_pregunta, OpenRouterConversacion.generar_pregunta, hc])))
          | some texto =>
            exact Or.inr (Or.inr (Or.inr ⟨texto, by
              simp [generar_pregunta, OpenRouterConversacion.generar_pregunta, hc]⟩))

theorem c2_enmendada_testigo :
    contenidoExtraido Json.null = Except.error () ∧
    generar_pregunta [] "pb" true (RespuestaApi.exito Json.null) =
      preguntaRespaldoTransporte :=
  ⟨rfl, (c2_enmendada [] "pb" true (RespuestaApi.exito Json.null)).2.2.1
    Json.null rfl⟩

/-- C10: persisting any conversation and loading the written file returns a
conversation equal to the original. `guardar_conversacion` stores the document
whose `"conversacion"` member is the JSON image of the conversation;
`cargar_conversacion` (`json.load` plus `.get("conversacion", [])`) returns
exactly that JSON value, and decoding it yields the original list of
role/text records. -/
theorem c10_ida_y_vuelta (archivoPrevio : Option ArchivoJson)
    (marcaTiempo : String) (conv : List Turno) :
    cargar_conversacion (guardar_conversacion archivoPrevio marcaTiempo conv) =
      Except.ok (conversacionAJson conv) ∧
    conversacionDeJson (conversacionAJson conv) = some conv := by
  constructor
  · rfl
  · show listaTurnosDeJson (conv.map turnoAJson) = some conv
    exact listaTurnosDeJson_map conv

/-- C3: in every loop iteration whose captured text is empty or
whitespace-only, no candidate turn is appended (the conversation is
unchanged), no persist call occurs, and the loop re-enters the
awaiting-input state without terminating — for any number of consecutive such
captures, the only change is the count of capture steps performed. -/
theorem c3_captura_vacia (st : EstadoSesion) (entradas : List (String × String))
    (hterm : st.terminado = false)
    (hvacias : ∀ e ∈ entradas, recortar e.1 = "") :
    ejecutar_entrevista st entradas =
      { st with capturas := st.capturas + entradas.length } := by
  induction entradas generalizing st with
  | nil => simp [ejecutar_entrevista]
  | cons e resto ih =>
    obtain ⟨r, p⟩ := e
    have hr : recortar r = "" := hvacias (r, p) (List.mem_cons_self _ _)
    have hresto : ∀ e ∈ resto, recortar e.1 = "" := fun e he =>
      hvacias e (List.mem_cons_of_mem _ he)
    calc ejecutar_entrevista st ((r, p) :: resto)
        = ejecutar_entrevista (iteracion st r p) resto := by
          show (if st.terminado = true then st else _) = _
          simp [hterm]
      _ = ejecutar_entrevista { st with capturas := st.capturas + 1 } resto := by
          rw [iteracion_conversacion_vacia hr]
      _ = { st with capturas := st.capturas + 1 + resto.length } :=
          ih { st with capturas := st.capturas + 1 } hterm hresto
      _ = { st with capturas := st.capturas + ((r, p) :: resto).length } := by
          rw [List.length_cons]
          congr 1
          omega

theorem c3_testigo :
    estadoInicial.terminado = false ∧
    ejecutar_entrevista estadoInicial [("   ", "p"), ("", "q")] =
      { estadoInicial with capturas := estadoInicial.capturas + 2 } :=
  ⟨rfl, c3_captura_vacia estadoInicial [("   ", "p"), ("", "q")] rfl (by decide)⟩

/-- C4: in every loop iteration whose captured text is non-empty, exactly one
candidate turn carrying that text is appended, and the entire conversation —
ending in that candidate turn, hence independent of whatever the generator
later returns — is the very next snapshot passed to the persist operation,
before the question produced by the generation step is appended. -/
theorem c4_captura_no_vacia (st : EstadoSesion) (respuesta nueva_pregunta : String)
    (hno : recortar respuesta ≠ "") :
    (iteracion st respuesta nueva_pregunta).conversacion =
      st.conversacion ++ [⟨Rol.candidato, respuesta⟩,
        ⟨Rol.entrevistador, nueva_pregunta⟩] ∧
    (iteracion st respuesta nueva_pregunta).persistencias.take
        (st.persistencias.length + 1) =
      st.persistencias ++ [st.conversacion ++ [⟨Rol.candidato, respuesta⟩]] := by
  refine ⟨iteracion_conversacion hno nueva_pregunta, ?_⟩
  by_cases ht : esTerminacion nueva_pregunta <;>
    simp [iteracion, hno, ht, List.take_append_eq_append_take,
      List.take_of_length_le]

theorem c4_testigo :
    recortar "Soy Ana" ≠ "" ∧
    ((iteracion estadoInicial "Soy Ana" "¿Y qué más?").conversacion =
        estadoInicial.conversacion ++ [⟨Rol.candidato, "Soy Ana"⟩,
          ⟨Rol.entrevistador, "¿Y qué más?"⟩] ∧
      (iteracion estadoInicial "Soy Ana" "¿Y qué más?").persistencias.take
          (estadoInicial.persistencias.length + 1) =
        estadoInicial.persistencias ++
          [estadoInicial.conversacion ++ [⟨Rol.candidato, "Soy Ana"⟩]]) :=
  ⟨by decide, c4_captura_no_vacia estadoInicial "Soy Ana" "¿Y qué más?" (by decide)⟩

/-- C5: whenever the freshly generated question contains a closing marker
(case-insensitive substring), the iteration appends it as the final
interviewer turn, persists the resulting conversation as its last persist
call, sets the terminated flag, and the loop consumes no further input: no
further capture step ever occurs in that session. -/
theorem c5_terminacion (st : EstadoSesion) (respuesta nueva_pregunta : String)
    (entradas : List (String × String))
    (hno : recortar respuesta ≠ "") (hfin : esTerminacion nueva_pregunta = true) :
    (iteracion st respuesta nueva_pregunta).terminado = true ∧
    (iteracion st respuesta nueva_pregunta).conversacion =
      st.conversacion ++ [⟨Rol.candidato, respuesta⟩,
        ⟨Rol.entrevistador, nueva_pregunta⟩] ∧
    (iteracion st respuesta nueva_pregunta).persistencias.getLast? =
      some ((iteracion st respuesta nueva_pregunta).conversacion) ∧
    ejecutar_entrevista (iteracion st respuesta nueva_pregunta) entradas =
      iteracion st respuesta nueva_pregunta := by
  have hterm : (iteracion st respuesta nueva_pregunta).terminado = true := by
    simp [iteracion, hno, hfin]
  refine ⟨hterm, iteracion_conversacion hno nueva_pregunta, ?_,
    ejecutar_entrevista_terminado _ entradas hterm⟩
  simp [iteracion, hno, hfin, List.getLast?_concat]

theorem c5_testigo :
    recortar "Sí, claro" ≠ "" ∧
    esTerminacion "Muchas gracias por tu tiempo." = true ∧
    (iteracion estadoInicial "Sí, claro" "Muchas gracias por tu tiempo.").terminado
      = true :=
  ⟨by decide, by decide,
    (c5_terminacion estadoInicial "Sí, claro" "Muchas gracias por tu tiempo."
      [("otra", "q")] (by decide) (by decide)).1⟩

/-- C6: at every reachable point of a session the conversation begins with an
interviewer turn, and any two adjacent turns carry different roles — in
particular two consecutive interviewer turns never occur at all, so they can
occur at most as the terminal step immediately before session end, as the
claim allows. -/
theorem c6_alternancia (entradas : List (String × String)) :
    (ejecutar_entrevista estadoInicial entradas).conversacion.head?.map
        Turno.rol = some Rol.entrevistador ∧
    ∀ i a b,
      (ejecutar_entrevista estadoInicial entradas).conversacion[i]? = some a →
      (ejecutar_entrevista estadoInicial entradas).conversacion[i + 1]? = some b →
      (a.rol ≠ b.rol ∨
        ((ejecutar_entrevista estadoInicial entradas).terminado = true ∧
          i + 2 = (ejecutar_entrevista estadoInicial entradas).conversacion.length)) := by
  obtain ⟨halt, hhead, -⟩ :=
    invariante_ejecutar invariante_estadoInicial entradas
  exact ⟨hhead, fun i a b ha hb => Or.inl (alterna_adyacentes halt i a b ha hb)⟩

theorem c6_testigo :
    (ejecutar_entrevista estadoInicial [("Hola", "p")]).conversacion[0]? =
      some turnoInicial ∧
    (ejecutar_entrevista estadoInicial [("Hola", "p")]).conversacion[1]? =
      some ⟨Rol.candidato, "Hola"⟩ ∧
    (turnoInicial.rol ≠ (⟨Rol.candidato, "Hola"⟩ : Turno).rol ∨
      ((ejecutar_entrevista estadoInicial [("Hola", "p")]).terminado = true ∧
        0 + 2 = (ejecutar_entrevista estadoInicial [("Hola", "p")]).conversacion.length)) :=
  ⟨by decide, by decide,
    (c6_alternancia [("Hola", "p")]).2 0 turnoInicial ⟨Rol.candidato, "Hola"⟩
      (by decide) (by decide)⟩

/-- C7: when the external interrupt fires at any point of the session — after
any history of loop iterations — the handler performs exactly one final
persist whose snapshot is exactly the fully-appended turns accumulated so
far, appends no turn for the interrupt itself, and terminates the session. -/
theorem c7_interrupcion (entradas : List (String × String)) :
    (manejarInterrupcion (ejecutar_entrevista estadoInicial entradas)).conversacion =
      (ejecutar_entrevista estadoInicial entradas).conversacion ∧
    (manejarInterrupcion (ejecutar_entrevista estadoInicial entradas)).persistencias =
      (ejecutar_entrevista estadoInicial entradas).persistencias ++
        [(ejecutar_entrevista estadoInicial entradas).conversacion] ∧
    (manejarInterrupcion (ejecutar_entrevista estadoInicial entradas)).terminado =
      true ∧
    (manejarInterrupcion (ejecutar_entrevista estadoInicial entradas)).capturas =
      (ejecutar_entrevista estadoInicial entradas).capturas :=
  ⟨rfl, rfl, rfl, rfl⟩

/-- C8: the message list sent to the model is the system instruction first,
then each conversation turn in order with interviewer turns mapped to the
assistant role and candidate turns to the user role, then one final user-role
instruction asking for only the next interviewer question; its length is the
conversation length plus two. -/
theorem c8_mensajes (conversacion : List Turno) (prompt_base : String) :
    (OpenRouterConversacion.construirMensajes conversacion prompt_base).length =
      conversacion.length + 2 ∧
    (OpenRouterConversacion.construirMensajes conversacion prompt_base).head? =
      some ⟨"system", prompt_base⟩ ∧
    (∀ i t, conversacion[i]? = some t →
      (t.rol = Rol.entrevistador →
        (OpenRouterConversacion.construirMensajes conversacion prompt_base)[i + 1]? =
          some ⟨"assistant", t.texto⟩) ∧
      (t.rol = Rol.candidato →
        (OpenRouterConversacion.construirMensajes conversacion prompt_base)[i + 1]? =
          some ⟨"user", t.texto⟩)) ∧
    (OpenRouterConversacion.construirMensajes conversacion prompt_base).getLast? =
      some ⟨"user", instruccionFinal⟩ := by
  refine ⟨?_, rfl, ?_, ?_⟩
  · simp [OpenRouterConversacion.construirMensajes]
  · intro i t hit
    have hlt : i < conversacion.length := lt_length_de_getElem? hit
    have hms :
        (OpenRouterConversacion.construirMensajes conversacion prompt_base)[i + 1]? =
          some ⟨if t.rol = Rol.entrevistador then "assistant" else "user",
            t.texto⟩ := by
      simp only [OpenRouterConversacion.construirMensajes,
        List.getElem?_cons_succ]
      rw [List.getElem?_append_left (by simpa using hlt)]
      simp [hit]
    constructor
    · intro hrol
      rw [hms, hrol]
      simp
    · intro hrol
      rw [hms, hrol]
      rfl
  · show ((⟨"system", prompt_base⟩ : Mensaje) ::
      (_ ++ [(⟨"user", instruccionFinal⟩ : Mensaje)])).getLast? = _
    rw [← List.cons_append, List.getLast?_concat]

theorem c8_testigo :
    ([⟨Rol.entrevistador, "Hola"⟩] : List Turno)[0]? =
      some ⟨Rol.entrevistador, "Hola"⟩ ∧
    (⟨Rol.entrevistador, "Hola"⟩ : Turno).rol = Rol.entrevistador ∧
    (OpenRouterConversacion.construirMensajes [⟨Rol.entrevistador, "Hola"⟩]
      "pb")[0 + 1]? = some ⟨"assistant", "Hola"⟩ :=
  ⟨rfl, rfl,
    ((c8_mensajes [⟨Rol.entrevistador, "Hola"⟩] "pb").2.2.1 0
      ⟨Rol.entrevistador, "Hola"⟩ rfl).1 rfl⟩

/-- C9: when question generation fails — here the transport-layer failure —
the returned text is the non-empty transport fallback; no fallback text
(transport, format, or outer-error) contains a termination marker, so the
loop appends the fallback as an interviewer turn and the session does not
terminate on a generation failure. -/
theorem c9_respaldo (st : EstadoSesion) (respuesta prompt_base : String)
    (hterm : st.terminado = false) (hno : recortar respuesta ≠ "") :
    generar_pregunta st.conversacion prompt_base true RespuestaApi.falla =
      preguntaRespaldoTransporte ∧
    preguntaRespaldoTransporte ≠ "" ∧
    esTerminacion preguntaRespaldoTransporte = false ∧
    esTerminacion preguntaRespaldoFormato = false ∧
    esTerminacion preguntaRespaldoError = false ∧
    preguntaRespaldoFormato ≠ "" ∧ preguntaRespaldoError ≠ "" ∧
    (iteracion st respuesta preguntaRespaldoTransporte).conversacion =
      st.conversacion ++ [⟨Rol.candidato, respuesta⟩,
        ⟨Rol.entrevistador, preguntaRespaldoTransporte⟩] ∧
    (iteracion st respuesta preguntaRespaldoTransporte).terminado = false := by
  refine ⟨rfl, by decide, by decide, by decide, by decide, by decide, by decide,
    iteracion_conversacion hno preguntaRespaldoTransporte, ?_⟩
  simp [iteracion, hno, show esTerminacion preguntaRespaldoTransporte = false
    from by decide, hterm]

theorem c9_testigo :
    estadoInicial.terminado = false ∧
    recortar "Claro" ≠ "" ∧
    generar_pregunta estadoInicial.conversacion "pb" true RespuestaApi.falla =
      preguntaRespaldoTransporte ∧
    (iteracion estadoInicial "Claro" preguntaRespaldoTransporte).terminado = false :=
  ⟨rfl, by decide,
    (c9_respaldo estadoInicial "Claro" "pb" rfl (by decide)).1,
    (c9_respaldo estadoInicial "Claro" "pb" rfl (by decide)).2.2.2.2.2.2.2.2⟩
